import Mathlib

attribute [local semireducible] Rat.mul Rat.add Rat.sub Rat.inv

/-!
Verification of the event-recommender core (`Frontend/backend/event_recommender.py`).

The encoder (`SentenceTransformer.encode`) and the similarity scorer inside the
vector index are opaque external dependencies; they are modelled as explicit
function parameters `encode : String → List ℚ` and `sc : List ℚ → List ℚ → ℚ`.
All vectors are lists of rationals so that every definition is executable and
every concrete instance decidable.
-/

namespace EventRecommender

/-- `SIMILARITY_THRESHOLD = 0.835` from the source. -/
def SIMILARITY_THRESHOLD : ℚ := 835 / 1000

/-- An event document carrying the four required descriptive keys and the
optional `id` key (`doc.get("id", 0)` supplies the default 0). -/
structure EventDoc where
  title : String
  location : String
  summary : String
  target_audience : String
  id : Option Nat
deriving DecidableEq

/-- A point stored in the vector index: id, vector and payload, as built by
`models.PointStruct(id=..., vector=..., payload=doc)`. -/
structure Point where
  id : Nat
  vector : List ℚ
  payload : EventDoc
deriving DecidableEq

/-- A search hit: similarity score together with the stored point. -/
structure ScoredPoint where
  score : ℚ
  point : Point
deriving DecidableEq

/-- Descending-score order on search hits: `scoreGE a b` holds when `a`'s
score is at least `b`'s. -/
def scoreGE (a b : ScoredPoint) : Prop := b.score ≤ a.score

instance : DecidableRel scoreGE := fun a b => inferInstanceAs (Decidable (b.score ≤ a.score))

instance : IsTotal ScoredPoint scoreGE :=
  ⟨fun a b => (le_total b.score a.score).elim Or.inl Or.inr⟩

instance : IsTrans ScoredPoint scoreGE :=
  ⟨fun _ _ _ h1 h2 => le_trans h2 h1⟩

/-- Modelled from the spec: the vector index's top-k nearest-neighbor query
(qdrant `client.search` / `client.query_points`, a third-party dependency not
in this repository) — "returns up to k nearest neighbors by cosine similarity,
descending score order".  The scorer `sc` abstracts cosine similarity between
the query vector and a stored vector. -/
def search (sc : List ℚ → List ℚ → ℚ) (points : List Point) (q : List ℚ)
    (limit : Nat) : List ScoredPoint :=
  ((points.map fun p => ScoredPoint.mk (sc q p.vector) p).insertionSort scoreGE).take limit

/-- `is_similar_event` from the source: search with `limit=1`; similar iff a
hit exists and its score strictly exceeds the threshold. -/
def is_similar_event (sc : List ℚ → List ℚ → ℚ) (points : List Point)
    (new_vector : List ℚ) (threshold : ℚ) : Bool :=
  match search sc points new_vector 1 with
  | [] => false
  | r :: _ => decide (threshold < r.score)

/-- Qdrant upsert semantics of `upload_points`: a point with an already-present
id replaces the stored point, otherwise the point is appended. -/
def upsert (points : List Point) (p : Point) : List Point :=
  if points.any fun q => q.id == p.id then
    points.map fun q => if q.id == p.id then p else q
  else points ++ [p]

/-- `values_string`: the descriptive text
`f"{doc['Title']} {doc['location']} {doc['summary']} {doc['target_audience']}"`. -/
def valuesString (d : EventDoc) : String :=
  d.title ++ " " ++ d.location ++ " " ++ d.summary ++ " " ++ d.target_audience

/-- `add_event_to_database` from the source: encode the descriptive text,
skip when `is_similar_event` fires, otherwise upsert the point with id
`doc.get("id", 0)`; in both cases return the status string of the source. -/
def add_event_to_database (encode : String → List ℚ) (sc : List ℚ → List ℚ → ℚ)
    (threshold : ℚ) (st : List Point) (doc : EventDoc) : String × List Point :=
  let event_vector := encode (valuesString doc)
  if is_similar_event sc st event_vector threshold then
    ("Skipped event: " ++ doc.title ++ " (similar to an existing event).", st)
  else
    ("Inserted event: " ++ doc.title ++ " into the database.",
      upsert st (Point.mk (doc.id.getD 0) event_vector doc))

/-- A raw event record as loaded from `events.json`: any of the four
descriptive keys may be missing (a Python dict access on a missing key raises
`KeyError`). -/
structure RawDoc where
  title : Option String
  location : Option String
  summary : Option String
  target_audience : Option String
  id : Option Nat
deriving DecidableEq

/-- Python dict access `doc[k]`: the value when present, `KeyError: k`
otherwise. -/
def getKey {α : Type} (o : Option α) (k : String) : Except String α :=
  match o with
  | some a => Except.ok a
  | none => Except.error ("KeyError: " ++ k)

/-- `add_event_to_database` applied to a raw record: the f-string building
`values_string` reads the keys `Title`, `location`, `summary`,
`target_audience` in that order, and the first missing key raises. -/
def add_event_raw (encode : String → List ℚ) (sc : List ℚ → List ℚ → ℚ)
    (threshold : ℚ) (st : List Point) (r : RawDoc) :
    Except String (String × List Point) := do
  let t ← getKey r.title "Title"
  let l ← getKey r.location "location"
  let s ← getKey r.summary "summary"
  let a ← getKey r.target_audience "target_audience"
  Except.ok (add_event_to_database encode sc threshold st (EventDoc.mk t l s a r.id))

/-- The ingestion loop of `main`: each record gets `doc["id"] = idx` and is
passed to `add_event_to_database`; there is no exception handler, so a raised
`KeyError` propagates and aborts the whole batch. -/
def runBatch (encode : String → List ℚ) (sc : List ℚ → List ℚ → ℚ)
    (threshold : ℚ) :
    List RawDoc → Nat → List Point → Except String (List String × List Point)
  | [], _, st => Except.ok ([], st)
  | r :: rest, idx, st => do
    let res ← add_event_raw encode sc threshold st { r with id := some idx }
    let more ← runBatch encode sc threshold rest (idx + 1) res.2
    Except.ok (res.1 :: more.1, more.2)

/-- The user profile record consumed by `get_user_preferences`.  `year` holds
`str(user_data['year'])`, the string the source interpolates. -/
structure UserData where
  name : String
  gender : String
  role : String
  department : String
  year : String
  interests : List String
  past_events : List String
deriving DecidableEq

/-- The keyword weights of `get_user_preferences`, with `NA_weight` the
baseline-subtraction weight. -/
structure Weights where
  name_weight : ℚ
  gender_weight : ℚ
  role_weight : ℚ
  department_weight : ℚ
  year_weight : ℚ
  interests_weight : ℚ
  past_events_weight : ℚ
  NA_weight : ℚ
deriving DecidableEq

/-- Python `int()` on a rational: truncation toward zero. -/
def pyInt (q : ℚ) : ℤ := Int.tdiv q.num q.den

/-- `n` copies of `s` concatenated. -/
def strRepeat (s : String) : Nat → String
  | 0 => ""
  | n + 1 => s ++ strRepeat s n

/-- Python `s * z` for an integer `z`: non-positive counts give `""`. -/
def pyRepeat (s : String) (z : ℤ) : String := strRepeat s z.toNat

/-- Python `' '.join(l)`. -/
def joinSpace (l : List String) : String := String.intercalate " " l

/-- `(user_data['name'] + ' ') * int(name_weight)`. -/
def namePiece (u : UserData) (w : Weights) : String :=
  pyRepeat (u.name ++ " ") (pyInt w.name_weight)

/-- `(user_data['gender'] + ' ') * int(gender_weight)`. -/
def genderPiece (u : UserData) (w : Weights) : String :=
  pyRepeat (u.gender ++ " ") (pyInt w.gender_weight)

/-- `(user_data['role'] + ' ') * int(role_weight)`. -/
def rolePiece (u : UserData) (w : Weights) : String :=
  pyRepeat (u.role ++ " ") (pyInt w.role_weight)

/-- `(user_data['department'] + ' ') * int(department_weight)`. -/
def departmentPiece (u : UserData) (w : Weights) : String :=
  pyRepeat (u.department ++ " ") (pyInt w.department_weight)

/-- `(str(user_data['year']) + 'st year' + ' ') * int(year_weight)`. -/
def yearPiece (u : UserData) (w : Weights) : String :=
  pyRepeat (u.year ++ "st year" ++ " ") (pyInt w.year_weight)

/-- `(' '.join(user_data['interests']) + ' ') * int(interests_weight)`. -/
def interestsPiece (u : UserData) (w : Weights) : String :=
  pyRepeat (joinSpace u.interests ++ " ") (pyInt w.interests_weight)

/-- `(' '.join(user_data['past_events']) + ' ') * int(past_events_weight)`. -/
def pastEventsPiece (u : UserData) (w : Weights) : String :=
  pyRepeat (joinSpace u.past_events ++ " ") (pyInt w.past_events_weight)

/-- `weighted_text` from `get_user_preferences`: the concatenation of the
seven weighted pieces, in source order. -/
def weighted_text (u : UserData) (w : Weights) : String :=
  namePiece u w ++ genderPiece u w ++ rolePiece u w ++ departmentPiece u w ++
    yearPiece u w ++ interestsPiece u w ++ pastEventsPiece u w

/-- `combined_vector` from `get_user_preferences`:
`[p - NA_weight*n for p, n in zip(weighted_vector, na_vector)]` where
`weighted_vector = encode(weighted_text)` and `na_vector = encode("N/A")`. -/
def get_user_preferences_vector (encode : String → List ℚ) (u : UserData)
    (w : Weights) : List ℚ :=
  let na_vector := encode "N/A"
  let weighted_vector := encode (weighted_text u w)
  List.zipWith (fun p n => p - w.NA_weight * n) weighted_vector na_vector

/-- Scalar multiple of a vector, component-wise. -/
def vsmul (c : ℚ) (v : List ℚ) : List ℚ := v.map fun x => c * x

/-- Component-wise vector sum. -/
def vadd (a b : List ℚ) : List ℚ := List.zipWith (· + ·) a b

/-- Component-wise vector difference. -/
def vsub (a b : List ℚ) : List ℚ := List.zipWith (· - ·) a b

/-- The zero vector of dimension `n`. -/
def zeros (n : Nat) : List ℚ := List.replicate n 0

/-- Follows the SPEC's words, not the source, for the refinement comparison of
C1: "for each weighted field (name, gender, role, department, year, interests,
past_events), if the field is present and non-empty and its weight is
non-zero, encode the field's textual representation and add
weight × fieldVector into a running sum vector (component-wise)", then
"subtract NA_weight × encode(N/A) component-wise from the running sum". -/
def build_spec (encode : String → List ℚ) (u : UserData) (w : Weights) : List ℚ :=
  let fields : List (String × ℚ) :=
    [(u.name, w.name_weight), (u.gender, w.gender_weight), (u.role, w.role_weight),
      (u.department, w.department_weight), (u.year, w.year_weight),
      (joinSpace u.interests, w.interests_weight),
      (joinSpace u.past_events, w.past_events_weight)]
  let contribs := fields.filter fun f => decide (f.1 ≠ "" ∧ f.2 ≠ 0)
  vsub (contribs.foldl (fun acc f => vadd acc (vsmul f.2 (encode f.1)))
      (zeros (encode "N/A").length))
    (vsmul w.NA_weight (encode "N/A"))

/-- The observable store around `get_user_preferences`: the vector index's
named collections and the files the function may write. -/
structure Store where
  collections : List (String × List Point)
  files : List (String × List EventDoc)
deriving DecidableEq

/-- The points of one named collection (empty when absent). -/
def lookupCollection (s : Store) (name : String) : List Point :=
  match s.collections.lookup name with
  | some pts => pts
  | none => []

/-- Overwrite-or-create a file entry. -/
def writeFile (files : List (String × List EventDoc)) (name : String)
    (data : List EventDoc) : List (String × List EventDoc) :=
  if files.any fun f => f.1 == name then
    files.map fun f => if f.1 == name then (name, data) else f
  else files ++ [(name, data)]

/-- `get_user_preferences` from the source: build the combined query vector,
query the `my_events` collection with `limit=10`, collect the hit payloads,
dump them to `search_results.json`, and return them. -/
def get_user_preferences (encode : String → List ℚ) (sc : List ℚ → List ℚ → ℚ)
    (u : UserData) (w : Weights) (s : Store) : List EventDoc × Store :=
  let combined_vector := get_user_preferences_vector encode u w
  let hits := search sc (lookupCollection s "my_events") combined_vector 10
  let resulting_data := hits.map fun h => h.point.payload
  (resulting_data,
    Store.mk s.collections (writeFile s.files "search_results.json" resulting_data))

/-- `interests_weight := q`, all other weights unchanged. -/
def setInterestsWeight (w : Weights) (q : ℚ) : Weights :=
  { w with interests_weight := q }

/-- The interests text repeated `n` times, as it appears inside
`weighted_text` for an integer interests weight `n`. -/
def interestsRep (u : UserData) (n : Nat) : String :=
  strRepeat (joinSpace u.interests ++ " ") n

/-- A concrete executable encoder for witnesses: the string length as a
one-dimensional vector. -/
def exEncodeLen : String → List ℚ := fun s => [(s.length : ℚ)]

/-- A concrete encoder that sends the empty string to a non-zero vector, as
the real sentence encoder does. -/
def exEncodeLen1 : String → List ℚ := fun s => [(s.length : ℚ) + 1]

/-- A concrete non-additive encoder: the squared string length. -/
def exEncodeSq : String → List ℚ := fun s => [(s.length : ℚ) * (s.length : ℚ)]

/-- A concrete similarity scorer that always returns 0 (below threshold). -/
def exScZero : List ℚ → List ℚ → ℚ := fun _ _ => 0

/-- A concrete similarity scorer pinned exactly at the 0.835 threshold. -/
def exSc835 : List ℚ → List ℚ → ℚ := fun _ _ => 835 / 1000

/-- A concrete user profile. -/
def exUser : UserData := UserData.mk "a" "b" "c" "d" "1" ["i"] ["p"]

/-- The default keyword weights of `get_user_preferences`:
`name 0, gender 1, role 3, department 2, year 1, interests 5,
past_events 1, NA 0.6`. -/
def defaultWeights : Weights := Weights.mk 0 1 3 2 1 5 1 (6 / 10)

/-- All seven field weights zero, `NA_weight` kept at its default 0.6. -/
def zeroFieldWeights : Weights := Weights.mk 0 0 0 0 0 0 0 (6 / 10)

/-- A profile whose only non-empty field is one interest. -/
def uInterests : UserData := UserData.mk "" "" "" "" "" ["x"] []

/-- Weights that isolate the interests field: interests weight `d`, all other
weights (including `NA_weight`) zero. -/
def wBase (d : ℚ) : Weights := Weights.mk 0 0 0 0 0 d 0 0

/-- A concrete complete event, carrying no `id` key. -/
def e1x : EventDoc := EventDoc.mk "A" "x" "y" "z" none

/-- A second concrete complete event, also without an `id` key. -/
def e2x : EventDoc := EventDoc.mk "B" "u" "v" "w" none

/-- The first concrete event with an explicit id, as batch ingestion assigns. -/
def e1id : EventDoc := EventDoc.mk "A" "x" "y" "z" (some 0)

/-- The second concrete event with a distinct explicit id. -/
def e2id : EventDoc := EventDoc.mk "B" "u" "v" "w" (some 1)

/-- A concrete stored point. -/
def exPointA : Point := Point.mk 1 [0] e1x

/-- A complete raw record. -/
def rawGood1 : RawDoc := RawDoc.mk (some "A") (some "x") (some "y") (some "z") none

/-- A raw record missing the required `summary` key. -/
def rawBad : RawDoc := RawDoc.mk (some "B") (some "u") none (some "w") none

/-- Another complete raw record, queued after the malformed one. -/
def rawGood2 : RawDoc := RawDoc.mk (some "C") (some "q") (some "r") (some "t") none

theorem search_length (sc : List ℚ → List ℚ → ℚ) (pts : List Point)
    (q : List ℚ) (k : Nat) : (search sc pts q k).length = min k pts.length := by
  unfold search
  rw [List.length_take, List.length_insertionSort, List.length_map]

theorem search_sorted (sc : List ℚ → List ℚ → ℚ) (pts : List Point)
    (q : List ℚ) (k : Nat) : List.Sorted scoreGE (search sc pts q k) :=
  (List.sorted_insertionSort scoreGE _).sublist (List.take_sublist _ _)

theorem zipWith_sub_getD (c : ℚ) (a : List ℚ) :
    ∀ (b : List ℚ) (i : Nat),
      i < (List.zipWith (fun p n => p - c * n) a b).length →
      (List.zipWith (fun p n => p - c * n) a b).getD i 0 =
        a.getD i 0 - c * b.getD i 0 := by
  induction a with
  | nil => intro b i h; simp at h
  | cons p a ih =>
    intro b i h
    cases b with
    | nil => simp at h
    | cons q b =>
      cases i with
      | zero => simp
      | succ j =>
        simp only [List.zipWith_cons_cons, List.length_cons,
          List.getD_cons_succ] at h ⊢
        exact ih b j (by omega)

theorem pyInt_natCast (n : ℕ) : pyInt (n : ℚ) = n := by
  simp [pyInt]

theorem strRepeat_add (s : String) (m n : Nat) :
    strRepeat s (m + n) = strRepeat s m ++ strRepeat s n := by
  induction m with
  | zero => simp [strRepeat]
  | succ k ih =>
    rw [Nat.succ_add]
    show s ++ strRepeat s (k + n) = (s ++ strRepeat s k) ++ strRepeat s n
    rw [ih, String.append_assoc]

theorem namePiece_setInterests (u : UserData) (w : Weights) (q : ℚ) :
    namePiece u (setInterestsWeight w q) = namePiece u w := rfl

theorem genderPiece_setInterests (u : UserData) (w : Weights) (q : ℚ) :
    genderPiece u (setInterestsWeight w q) = genderPiece u w := rfl

theorem rolePiece_setInterests (u : UserData) (w : Weights) (q : ℚ) :
    rolePiece u (setInterestsWeight w q) = rolePiece u w := rfl

theorem departmentPiece_setInterests (u : UserData) (w : Weights) (q : ℚ) :
    departmentPiece u (setInterestsWeight w q) = departmentPiece u w := rfl

theorem yearPiece_setInterests (u : UserData) (w : Weights) (q : ℚ) :
    yearPiece u (setInterestsWeight w q) = yearPiece u w := rfl

theorem pastEventsPiece_setInterests (u : UserData) (w : Weights) (q : ℚ) :
    pastEventsPiece u (setInterestsWeight w q) = pastEventsPiece u w := rfl

theorem interestsPiece_setInterests_natCast (u : UserData) (w : Weights) (n : ℕ) :
    interestsPiece u (setInterestsWeight w (n : ℚ)) = interestsRep u n := by
  simp [interestsPiece, setInterestsWeight, pyRepeat, pyInt_natCast, interestsRep]

/-- C1, counterexample: with the length encoder, the default weights and a
concrete profile, the query vector the code builds (encoding the repetition-
weighted text) differs from the spec's per-field weighted vector sum. -/
theorem c1_counterexample :
    get_user_preferences_vector exEncodeLen exUser defaultWeights ≠
      build_spec exEncodeLen exUser defaultWeights := by decide

/-- C1 (amended): the query vector is not a per-field weighted sum of encoded
fields; component-wise it equals
`encode(weighted_text) - NA_weight * encode("N/A")`, where `weighted_text`
concatenates each field's text (plus a trailing space) repeated
`int(weight)` times. -/
theorem c1_amended_componentwise (encode : String → List ℚ) (u : UserData)
    (w : Weights) (i : Nat)
    (hi : i < (get_user_preferences_vector encode u w).length) :
    (get_user_preferences_vector encode u w).getD i 0 =
      (encode (weighted_text u w)).getD i 0 -
        w.NA_weight * (encode "N/A").getD i 0 := by
  exact zipWith_sub_getD w.NA_weight (encode (weighted_text u w)) (encode "N/A") i hi

/-- Witness for C1 (amended) at the concrete length encoder, profile and
default weights, component 0. -/
theorem c1_amended_componentwise_witness :
    0 < (get_user_preferences_vector exEncodeLen exUser defaultWeights).length ∧
    (get_user_preferences_vector exEncodeLen exUser defaultWeights).getD 0 0 =
      (exEncodeLen (weighted_text exUser defaultWeights)).getD 0 0 -
        defaultWeights.NA_weight * (exEncodeLen "N/A").getD 0 0 :=
  ⟨by decide,
    c1_amended_componentwise exEncodeLen exUser defaultWeights 0 (by decide)⟩

/-- C2: `add_event_to_database` skips (returning the skip status and leaving
the collection untouched) exactly when `is_similar_event` fires, otherwise it
upserts the encoded point and reports the insert status; and
`is_similar_event` fires iff the top-1 nearest-neighbor search returns a hit
whose score strictly exceeds the threshold. -/
theorem c2_dedup_gate (encode : String → List ℚ) (sc : List ℚ → List ℚ → ℚ)
    (threshold : ℚ) (st : List Point) (doc : EventDoc) :
    add_event_to_database encode sc threshold st doc =
      (if is_similar_event sc st (encode (valuesString doc)) threshold then
        ("Skipped event: " ++ doc.title ++ " (similar to an existing event).", st)
      else
        ("Inserted event: " ++ doc.title ++ " into the database.",
          upsert st (Point.mk (doc.id.getD 0) (encode (valuesString doc)) doc))) ∧
    (is_similar_event sc st (encode (valuesString doc)) threshold = true ↔
      ∃ r ∈ search sc st (encode (valuesString doc)) 1, threshold < r.score) := by
  constructor
  · rfl
  · unfold is_similar_event
    cases h : search sc st (encode (valuesString doc)) 1 with
    | nil => simp [h]
    | cons r rest =>
      have hlen : (search sc st (encode (valuesString doc)) 1).length ≤ 1 := by
        rw [search_length]; exact min_le_left _ _
      rw [h] at hlen
      have hr : rest = [] := by
        simpa using hlen
      subst hr
      simp [h]

/-- C3, counterexample: with a non-additive encoder (squared length), doubling
the interests weight from 1 to 2 does not scale the interests contribution to
the query vector by 2. -/
theorem c3_counterexample :
    vsub (get_user_preferences_vector exEncodeSq uInterests (wBase 2))
        (get_user_preferences_vector exEncodeSq uInterests (wBase 0)) ≠
      vsmul 2
        (vsub (get_user_preferences_vector exEncodeSq uInterests (wBase 1))
          (get_user_preferences_vector exEncodeSq uInterests (wBase 0))) := by decide

/-- C3 (amended): the transformation is linear in a field's weight only at
the text level: with integer interests weight `n` the weighted text contains
the interests text repeated `n` times at the interests position, and weight
`2n` exactly doubles that repetition; the vector effect is whatever the
encoder does to the doubled text, not a doubled vector contribution. -/
theorem c3_amended_text_linear (u : UserData) (w : Weights) (n : ℕ) :
    weighted_text u (setInterestsWeight w (n : ℚ)) =
      namePiece u w ++ genderPiece u w ++ rolePiece u w ++ departmentPiece u w ++
        yearPiece u w ++ interestsRep u n ++ pastEventsPiece u w ∧
    weighted_text u (setInterestsWeight w ((2 * n : ℕ) : ℚ)) =
      namePiece u w ++ genderPiece u w ++ rolePiece u w ++ departmentPiece u w ++
        yearPiece u w ++ (interestsRep u n ++ interestsRep u n) ++
          pastEventsPiece u w := by
  constructor
  · rw [weighted_text, namePiece_setInterests, genderPiece_setInterests,
      rolePiece_setInterests, departmentPiece_setInterests,
      yearPiece_setInterests, pastEventsPiece_setInterests,
      interestsPiece_setInterests_natCast]
  · rw [weighted_text, namePiece_setInterests, genderPiece_setInterests,
      rolePiece_setInterests, departmentPiece_setInterests,
      yearPiece_setInterests, pastEventsPiece_setInterests,
      interestsPiece_setInterests_natCast]
    rw [show interestsRep u (2 * n) = interestsRep u n ++ interestsRep u n by
      rw [interestsRep, Nat.two_mul, strRepeat_add]; rfl]

/-- C4: the nearest-neighbor query returns `min k n` results (hence at most
`k`, and fewer than `k` when the collection holds fewer points), the results
are sorted by non-increasing score, the empty collection yields the empty
sequence, and the recommendation path (`get_user_preferences`, `limit=10`)
returns at most 10 payloads. -/
theorem c4_query_shape (sc : List ℚ → List ℚ → ℚ) (pts : List Point)
    (q : List ℚ) (k : Nat) :
    (search sc pts q k).length = min k pts.length ∧
    List.Sorted scoreGE (search sc pts q k) ∧
    search sc ([] : List Point) q k = [] ∧
    ∀ (encode : String → List ℚ) (u : UserData) (w : Weights) (s : Store),
      (get_user_preferences encode sc u w s).1.length ≤ 10 := by
  refine ⟨search_length sc pts q k, search_sorted sc pts q k, by unfold search; simp, ?_⟩
  intro encode u w s
  show ((search sc (lookupCollection s "my_events")
      (get_user_preferences_vector encode u w) 10).map fun h => h.point.payload).length ≤ 10
  rw [List.length_map, search_length]
  exact min_le_left _ _

/-- C5, counterexample: two dissimilar events (scorer constantly 0, well below
the 0.835 threshold) that both lack an `id` key share the default id 0, so the
second upsert replaces the first: the collection holds 1 point, not 2. -/
theorem c5_counterexample :
    exScZero (exEncodeLen (valuesString e2x)) (exEncodeLen (valuesString e1x)) <
        SIMILARITY_THRESHOLD ∧
    ((add_event_to_database exEncodeLen exScZero SIMILARITY_THRESHOLD
        (add_event_to_database exEncodeLen exScZero SIMILARITY_THRESHOLD [] e1x).2
        e2x).2).length = 1 ∧
    ¬ ((add_event_to_database exEncodeLen exScZero SIMILARITY_THRESHOLD
        (add_event_to_database exEncodeLen exScZero SIMILARITY_THRESHOLD [] e1x).2
        e2x).2).length = 2 := by decide

/-- C5 (amended): starting from an empty collection, ingesting `e1` and then
`e2` whose encoded similarity is below the threshold retains both (point count
2), provided the two events carry distinct ids (as batch ingestion assigns);
with equal ids the second upsert replaces the first. -/
theorem c5_amended_distinct_ids (encode : String → List ℚ)
    (sc : List ℚ → List ℚ → ℚ) (threshold : ℚ) (e1 e2 : EventDoc)
    (hid : e1.id.getD 0 ≠ e2.id.getD 0)
    (hsim : sc (encode (valuesString e2)) (encode (valuesString e1)) < threshold) :
    ((add_event_to_database encode sc threshold
        (add_event_to_database encode sc threshold [] e1).2 e2).2).length = 2 := by
  have hsim1 : is_similar_event sc [] (encode (valuesString e1)) threshold = false := rfl
  have h1 : (add_event_to_database encode sc threshold [] e1).2 =
      [Point.mk (e1.id.getD 0) (encode (valuesString e1)) e1] := by
    simp [add_event_to_database, hsim1, upsert]
  rw [h1]
  have hsearch : search sc [Point.mk (e1.id.getD 0) (encode (valuesString e1)) e1]
      (encode (valuesString e2)) 1 =
      [ScoredPoint.mk (sc (encode (valuesString e2)) (encode (valuesString e1)))
        (Point.mk (e1.id.getD 0) (encode (valuesString e1)) e1)] := rfl
  have hsim2 : is_similar_event sc
      [Point.mk (e1.id.getD 0) (encode (valuesString e1)) e1]
      (encode (valuesString e2)) threshold = false := by
    unfold is_similar_event
    rw [hsearch]
    exact decide_eq_false (lt_asymm hsim)
  simp [add_event_to_database, hsim2, upsert, hid]

/-- Witness for C5 (amended) at concrete events with ids 0 and 1 and the
constant-zero scorer. -/
theorem c5_amended_distinct_ids_witness :
    e1id.id.getD 0 ≠ e2id.id.getD 0 ∧
    exScZero (exEncodeLen (valuesString e2id)) (exEncodeLen (valuesString e1id)) <
      SIMILARITY_THRESHOLD ∧
    ((add_event_to_database exEncodeLen exScZero SIMILARITY_THRESHOLD
        (add_event_to_database exEncodeLen exScZero SIMILARITY_THRESHOLD [] e1id).2
        e2id).2).length = 2 :=
  ⟨by decide, by decide,
    c5_amended_distinct_ids exEncodeLen exScZero SIMILARITY_THRESHOLD e1id e2id
      (by decide) (by decide)⟩

/-- C6, counterexample: with an encoder sending the empty string to a non-zero
vector (as the real sentence encoder does), all-zero field weights do NOT give
`-NA_weight * encode("N/A")`: the encoding of the empty weighted text remains
in the result. -/
theorem c6_counterexample :
    get_user_preferences_vector exEncodeLen1 exUser zeroFieldWeights ≠
      vsmul (-(zeroFieldWeights.NA_weight)) (exEncodeLen1 "N/A") := by decide

/-- C6 (amended): with every field weight zero the weighted text is empty, so
the query vector is `encode("") - NA_weight * encode("N/A")` component-wise;
this equals the negated scaled baseline only if the encoder maps `""` to the
zero vector. -/
theorem c6_amended_zero_weights (encode : String → List ℚ) (u : UserData) (naw : ℚ) :
    get_user_preferences_vector encode u (Weights.mk 0 0 0 0 0 0 0 naw) =
      List.zipWith (fun p n => p - naw * n) (encode "") (encode "N/A") := by
  have hz : pyInt (0 : ℚ) = 0 := by decide
  have hp : ∀ s : String, pyRepeat s (pyInt (0 : ℚ)) = "" := by
    intro s; rw [hz]; rfl
  have ht : weighted_text u (Weights.mk 0 0 0 0 0 0 0 naw) = "" := by
    simp [weighted_text, namePiece, genderPiece, rolePiece, departmentPiece,
      yearPiece, interestsPiece, pastEventsPiece, hp]
  simp only [get_user_preferences_vector, ht]

/-- C7: a batch containing a record that misses the required `summary` key
aborts with the propagated `KeyError` instead of skipping the record; the
record queued after it is never ingested. -/
theorem c7_batch_aborts :
    runBatch exEncodeLen exScZero SIMILARITY_THRESHOLD [rawGood1, rawBad, rawGood2] 0 [] =
      Except.error "KeyError: summary" := rfl

/-- C8, counterexample: the insert status string carries the suffix
` into the database.`, so it is not exactly `Inserted event: <title>`. -/
theorem c8_counterexample :
    (add_event_to_database exEncodeLen exScZero SIMILARITY_THRESHOLD [] e1x).1 ≠
      "Inserted event: " ++ e1x.title := by decide

/-- C8 (amended): the status strings are exactly
`Inserted event: <title> into the database.` and
`Skipped event: <title> (similar to an existing event).` (with the trailing
period and the ` into the database.` suffix). -/
theorem c8_amended_status_strings (encode : String → List ℚ)
    (sc : List ℚ → List ℚ → ℚ) (threshold : ℚ) (st : List Point) (doc : EventDoc) :
    (add_event_to_database encode sc threshold st doc).1 =
      if is_similar_event sc st (encode (valuesString doc)) threshold then
        "Skipped event: " ++ doc.title ++ " (similar to an existing event)."
      else "Inserted event: " ++ doc.title ++ " into the database." := by
  simp only [add_event_to_database]
  split
  · rfl
  · rfl

/-- C9: the duplicate test uses strict inequality: when the top
nearest-neighbor score equals the threshold exactly, the event is inserted,
not skipped. -/
theorem c9_threshold_strict (encode : String → List ℚ)
    (sc : List ℚ → List ℚ → ℚ) (threshold : ℚ) (st : List Point)
    (doc : EventDoc) (r : ScoredPoint)
    (hr : (search sc st (encode (valuesString doc)) 1).head? = some r)
    (hs : r.score = threshold) :
    add_event_to_database encode sc threshold st doc =
      ("Inserted event: " ++ doc.title ++ " into the database.",
        upsert st (Point.mk (doc.id.getD 0) (encode (valuesString doc)) doc)) := by
  have hsim : is_similar_event sc st (encode (valuesString doc)) threshold = false := by
    unfold is_similar_event
    cases h : search sc st (encode (valuesString doc)) 1 with
    | nil => rfl
    | cons x rest =>
      rw [h] at hr
      simp only [List.head?_cons, Option.some.injEq] at hr
      subst hr
      exact decide_eq_false (by rw [hs]; exact lt_irrefl threshold)
  simp [add_event_to_database, hsim]

/-- Witness for C9 at a scorer pinned exactly at 0.835 against one stored
point. -/
theorem c9_threshold_strict_witness :
    (search exSc835 [exPointA] (exEncodeLen (valuesString e2x)) 1).head? =
      some (ScoredPoint.mk (835 / 1000) exPointA) ∧
    add_event_to_database exEncodeLen exSc835 (835 / 1000) [exPointA] e2x =
      ("Inserted event: " ++ e2x.title ++ " into the database.",
        upsert [exPointA]
          (Point.mk (e2x.id.getD 0) (exEncodeLen (valuesString e2x)) e2x)) :=
  ⟨by decide,
    c9_threshold_strict exEncodeLen exSc835 (835 / 1000) [exPointA] e2x
      (ScoredPoint.mk (835 / 1000) exPointA) (by decide) rfl⟩

/-- C10: the recommendation query is read-only on the vector index: the
collections are unchanged (`my_events` included), the only store effect is
writing the result snapshot to `search_results.json`, and the returned list is
the top-10 hit payloads. -/
theorem c10_query_readonly (encode : String → List ℚ)
    (sc : List ℚ → List ℚ → ℚ) (u : UserData) (w : Weights) (s : Store) :
    (get_user_preferences encode sc u w s).2.collections = s.collections ∧
    (∀ name, lookupCollection (get_user_preferences encode sc u w s).2 name =
      lookupCollection s name) ∧
    (get_user_preferences encode sc u w s).2.files =
      writeFile s.files "search_results.json" (get_user_preferences encode sc u w s).1 ∧
    (get_user_preferences encode sc u w s).1 =
      (search sc (lookupCollection s "my_events")
        (get_user_preferences_vector encode u w) 10).map fun h => h.point.payload :=
  ⟨rfl, fun _ => rfl, rfl, rfl⟩

end EventRecommender
